import Mathlib

/-
Verification development for the funnelfox-billing-js checkout orchestration
library. The definitions below are a shallow embedding of the relevant source
files:

  * src/src/utils/event-emitter.js   (EmitterModel namespace)
  * src/src/api-client.ts            (envelope interpretation, session cache key)
  * src/src/api.js, second segment: the CheckoutInstance class with the static
    session cache (checkout state machine, tokenize and resume handlers,
    updatePrice, destroy, isProcessing)

JavaScript-specific behaviour is modelled explicitly: string fields that the
code tests with plain truthiness are Option String values, where the empty
string counts as falsy exactly as in JavaScript; thrown exceptions are an
explicit Except or Option error channel; the observable side effects of an
instance (emitted events, provider-handler invocations, backend requests,
logged warnings) are recorded in an append-only trace.
-/

namespace FFB

/-- JavaScript truthiness of a possibly absent string field: present and
non-empty. Mirrors the way api-client.ts and the checkout code test fields
such as data.action_required_token, data.checkout_status, result.orderId. -/
def truthy : Option String → Bool
  | some s => s != ""
  | none => false

/-- One entry of the error list of a backend error envelope, as read by
processSessionResponse and processPaymentResponse: response.error is a list
of objects carrying msg, code and type fields. -/
structure ErrEntry where
  msg : Option String := none
  code : Option String := none
  etype : Option String := none
deriving DecidableEq

/-- The data object of a backend response, holding every field the client
ever reads. In JavaScript the same object shape may appear both under
response.data and at the top level of the response. -/
structure RespData where
  order_id : Option String := none
  client_token : Option String := none
  action_required_token : Option String := none
  checkout_status : Option String := none
  transaction_id : Option String := none
  failed_message_for_user : Option String := none
deriving DecidableEq

/-- A parsed backend response envelope. The field top holds the top-level
response fields that serve as the fallback of the expression
response.data or-else response in the source (an object is always truthy
in JavaScript, so the fallback fires exactly when data is absent). -/
structure Envelope where
  status : Option String := none
  error : Option (List ErrEntry) := none
  req_id : Option String := none
  data : Option RespData := none
  top : RespData := {}
deriving DecidableEq

/-- The expression response.data or-else response from api-client.ts. -/
def effData (e : Envelope) : RespData := e.data.getD e.top

/-- The APIError payload fields the client attaches when it throws:
message, errorCode, errorType, requestId (api-client.ts). -/
structure APIError where
  message : String
  errorCode : Option String := none
  errorType : Option String := none
  requestId : Option String := none
deriving DecidableEq

/-- The error taxonomy of src/src/errors: the constructors carry exactly the
data the claims need (the message the checkout code reads back, and the
structured API error fields). -/
inductive SDKError where
  | checkoutError (message : String)
  | validationError (field message : String)
  | apiError (e : APIError)
deriving DecidableEq

/-- The message property of a thrown error, as read by the expression
error.message in the tokenize and resume catch blocks. -/
def SDKError.msgText : SDKError → String
  | .checkoutError m => m
  | .validationError _ m => m
  | .apiError e => e.message

/-- firstError = response.error and-then [0]; the optional first entry of the
envelope error list. -/
def firstErr (e : Envelope) : Option ErrEntry := (e.error.getD []).head?

/-- firstError and-then msg, with JavaScript or-else fallback to a default
message when the entry or its msg field is absent or empty. -/
def firstErrMsg (e : Envelope) (dflt : String) : String :=
  match firstErr e with
  | some fe => match fe.msg with
    | some m => if m = "" then dflt else m
    | none => dflt
  | none => dflt

/-- The APIError thrown for a status error envelope: message from the first
error entry, plus errorCode, errorType and the backend request id
(api-client.ts, processSessionResponse and processPaymentResponse). -/
def envelopeError (e : Envelope) (dflt : String) : SDKError :=
  .apiError
    { message := firstErrMsg e dflt
      errorCode := (firstErr e).bind (·.code)
      errorType := (firstErr e).bind (·.etype)
      requestId := e.req_id }

/-- The session data returned by processSessionResponse on success. -/
structure SessionData where
  orderId : Option String := none
  clientToken : Option String := none
deriving DecidableEq

/-- processSessionResponse from api-client.ts: throw the structured APIError
for a status error envelope, otherwise read order_id and client_token from
response.data or-else response. -/
def processSessionResponse (e : Envelope) : Except SDKError SessionData :=
  if e.status = some "error" then
    .error (envelopeError e "Session creation failed")
  else
    let d := effData e
    .ok { orderId := d.order_id, clientToken := d.client_token }

/-- The runtime shape of the objects processPaymentResponse returns: a type
discriminator string plus the optional payload fields. Keeping type as a
string keeps the default branch of _processPaymentResult meaningful, exactly
as in the JavaScript. -/
structure PaymentProcessResult where
  rtype : String
  orderId : Option String := none
  status : Option String := none
  transactionId : Option String := none
  clientToken : Option String := none
deriving DecidableEq

/-- processPaymentResponse from api-client.ts, lines 163 to 217: error
envelopes throw; a truthy action_required_token wins over any
checkout_status; then the checkout_status switch with succeeded, failed,
cancelled, processing and a default unhandled-status throw; a falsy
checkout_status throws the invalid-format error. -/
def processPaymentResponse (e : Envelope) : Except SDKError PaymentProcessResult :=
  if e.status = some "error" then
    .error (envelopeError e "Payment request failed")
  else
    let d := effData e
    if truthy d.action_required_token then
      .ok { rtype := "action_required", orderId := d.order_id
            clientToken := d.action_required_token }
    else if truthy d.checkout_status then
      let s := d.checkout_status.getD ""
      if s = "succeeded" then
        .ok { rtype := "success", orderId := d.order_id
              status := some "succeeded", transactionId := d.transaction_id }
      else if s = "failed" then
        let m := if truthy d.failed_message_for_user then
          d.failed_message_for_user.getD "" else "Payment failed"
        .error (.apiError { message := m })
      else if s = "cancelled" then
        .error (.apiError { message := "Payment was cancelled by user" })
      else if s = "processing" then
        .ok { rtype := "processing", orderId := d.order_id
              status := some "processing" }
      else
        .error (.apiError { message := "Unhandled checkout status: " ++ s })
    else
      .error (.apiError { message := "Invalid payment response format" })

/-
Event emitter model (src/src/utils/event-emitter.js). A handler call is a
function from the emission arguments and the current world to the updated
world together with the exception it threw, if any: side effects a handler
performed before throwing are kept, exactly as in JavaScript. The emit loop
copies the handler list first (the .slice() in the source), so the list is
fixed for the whole emission.
-/

/-- A registered event handler: given the emission arguments and the world,
it returns the updated world and the exception it threw, if any. -/
def HandlerFun (α σ ε : Type) := α → σ → σ × Option ε

/-- The emitter state: the _events map, as an association list from event
name to the registration-ordered handler list. -/
structure Emitter (α σ ε : Type) where
  events : List (String × List (HandlerFun α σ ε))

/-- Lookup in the _events map, as get on the association list. -/
def lookupHandlers {α σ ε : Type} :
    List (String × List (HandlerFun α σ ε)) → String → Option (List (HandlerFun α σ ε))
  | [], _ => none
  | (k, hs) :: rest, name => if k = name then some hs else lookupHandlers rest name

/-- The for-loop of emit: each handler runs inside try-catch, so its thrown
exception is recorded (the console.warn) and the loop continues with the
world the handler left behind. Returns the final world and the per-handler
outcome log in invocation order. -/
def runHandlers {α σ ε : Type} :
    List (HandlerFun α σ ε) → α → σ → σ × List (Option ε)
  | [], _, s => (s, [])
  | h :: hs, a, s =>
    let r := h a s
    let rest := runHandlers hs a r.1
    (rest.1, r.2 :: rest.2)

/-- emit from event-emitter.js, lines 87 to 104: no entry for the event
returns false without running anything; otherwise every handler of the
copied list runs in registration order under try-catch and emit returns
true. The returned log is the sequence of caught outcomes. -/
def emit {α σ ε : Type} (em : Emitter α σ ε) (name : String) (a : α) (s : σ) :
    Bool × σ × List (Option ε) :=
  match lookupHandlers em.events name with
  | none => (false, s, [])
  | some hs =>
    let r := runHandlers hs a s
    (true, r.1, r.2)

/-
Checkout instance model (src/src/api.js, the CheckoutInstance class with the
static session cache). Observable side effects are recorded in an
append-only trace: emitted events with their payloads, provider-handler
invocations, issued backend requests, the scheduled grace-window failure and
logged warnings.
-/

/-- The checkout lifecycle states (src/src/constants CHECKOUT_STATES). -/
inductive CheckoutState where
  | initializing | ready | processing | action_required
  | updating | completed | error | destroyed
deriving DecidableEq

/-- One observable effect of a checkout instance. The first block are the
emitted events with their payloads; the provider entries are the calls into
the Primer handler object; the request entries mark backend calls being
issued; warnLogged is a console.warn; listenersRemoved marks the
removeAllListeners call at the end of destroy. -/
inductive Event where
  | statusChange (newState oldState : CheckoutState)
  | success (orderId : Option String) (status : Option String)
  | errorEv (message : Option String)
  | purchaseFailure (message : String)
  | purchaseCompleted
  | destroyEv
  | loaderChange (isLoading : Bool)
  | providerHandleSuccess
  | providerHandleFailure (message : String)
  | providerContinueWithToken (clientToken : Option String)
  | scheduleDelayedFailure (message : String)
  | requestCreateSession
  | requestCreatePayment (token : String)
  | requestResumePayment (resumeToken : String)
  | requestUpdateSession (priceId : String)
  | warnLogged (message : String)
  | listenersRemoved
deriving DecidableEq

/-- Recognizer for an emitted success event, used to count emissions. -/
def Event.isSuccessEv : Event → Bool
  | .success _ _ => true
  | _ => false

/-- Recognizer for an emitted purchase-failure event. -/
def Event.isPurchaseFailureEv : Event → Bool
  | .purchaseFailure _ => true
  | _ => false

/-- Recognizer for an issued create-session backend request. -/
def Event.isCreateSessionReq : Event → Bool
  | .requestCreateSession => true
  | _ => false

/-- Recognizer for an issued update-session backend request. -/
def Event.isUpdateSessionReq : Event → Bool
  | .requestUpdateSession _ => true
  | _ => false

/-- The mutable fields of a CheckoutInstance that the claims concern, plus
the fingerprint inputs (orgId and the checkoutConfig price and customer
fields) and the observation trace. counter is the reentrant loading
counter. -/
structure Checkout where
  orgId : String
  priceId : String
  externalId : String
  email : String
  state : CheckoutState := .initializing
  orderId : Option String := none
  clientToken : Option String := none
  isDestroyed : Bool := false
  counter : Int := 0
  trace : List Event := []
deriving DecidableEq

/-- Append one observable effect to the trace. -/
def emitEvent (c : Checkout) (e : Event) : Checkout :=
  { c with trace := c.trace ++ [e] }

/-- Model of _setState: change the state and emit a status-change event carrying the
new and old state, but only when the state actually changes. -/
def setState (c : Checkout) (s : CheckoutState) : Checkout :=
  if c.state = s then c
  else { c with state := s, trace := c.trace ++ [.statusChange s c.state] }

/-- onLoaderChangeWithRace: pre-increment or pre-decrement the reentrant
counter and emit loader-change with the truthiness of the new counter. -/
def onLoaderChangeWithRace (c : Checkout) (loading : Bool) : Checkout :=
  let cnt : Int := if loading then c.counter + 1 else c.counter - 1
  let c := { c with counter := cnt }
  emitEvent c (.loaderChange (cnt != 0))

/-- Model of _processPaymentResult (src/src/api.js lines 516 to 553): update orderId
when the result carries a truthy one, then switch on the result type:
success sets state completed, emits success with the echoed orderId and
status, and calls the provider success handler; action_required sets state
action_required, replaces the stored client token and tells the provider to
continue with the new token; processing sets state processing and schedules
the delayed grace-window failure; any other type throws. The returned
Option String is the thrown message, paired with the instance as already
mutated before the throw. -/
def processPaymentResult (c : Checkout) (r : PaymentProcessResult) :
    Checkout × Option String :=
  let c := if truthy r.orderId then { c with orderId := r.orderId } else c
  if r.rtype = "success" then
    let c := setState c .completed
    let c := emitEvent c (.success r.orderId r.status)
    let c := emitEvent c .providerHandleSuccess
    (c, none)
  else if r.rtype = "action_required" then
    let c := setState c .action_required
    let c := { c with clientToken := r.clientToken }
    let c := emitEvent c (.providerContinueWithToken r.clientToken)
    (c, none)
  else if r.rtype = "processing" then
    let c := setState c .processing
    let c := emitEvent c
      (.scheduleDelayedFailure "Payment is still processing. Please check back later.")
    (c, none)
  else
    (c, some ("Unknown payment result type: " ++ r.rtype))

/-- The shared catch block of the tokenize and resume handlers: set state
error, emit purchase-failure with the error message (or the fallback when
the message is falsy) and call the provider failure handler with it. -/
def catchFail (c : Checkout) (errMsg : String) : Checkout :=
  let m := if errMsg = "" then "Payment processing failed" else errMsg
  let c := setState c .error
  let c := emitEvent c (.purchaseFailure m)
  emitEvent c (.providerHandleFailure m)

/-- handleTokenizeSuccess (src/src/api.js lines 455 to 481). The backend
outcome of the createPayment call is the fetched argument. The try block
raises the loader, sets state processing, issues the request and processes
the interpreted result; any throw runs the catch block on the instance as
mutated so far; the finally block always lowers the loader and sets state
back to ready. -/
def handleTokenizeSuccess (c : Checkout) (token : String)
    (fetched : Except SDKError Envelope) : Checkout :=
  let c := onLoaderChangeWithRace c true
  let c := setState c .processing
  let c := emitEvent c (.requestCreatePayment token)
  let afterTry :=
    match fetched with
    | .error e => catchFail c e.msgText
    | .ok env =>
      match processPaymentResponse env with
      | .error e => catchFail c e.msgText
      | .ok r =>
        match processPaymentResult c r with
        | (c2, none) => c2
        | (c2, some m) => catchFail c2 m
  let c := onLoaderChangeWithRace afterTry false
  setState c .ready

/-- handleResumeSuccess (src/src/api.js lines 483 to 510): identical to the
tokenize handler except that the backend call is resumePayment and the
finally block additionally emits purchase-completed before lowering the
loader and restoring ready. -/
def handleResumeSuccess (c : Checkout) (resumeToken : String)
    (fetched : Except SDKError Envelope) : Checkout :=
  let c := onLoaderChangeWithRace c true
  let c := setState c .processing
  let c := emitEvent c (.requestResumePayment resumeToken)
  let afterTry :=
    match fetched with
    | .error e => catchFail c e.msgText
    | .ok env =>
      match processPaymentResponse env with
      | .error e => catchFail c e.msgText
      | .ok r =>
        match processPaymentResult c r with
        | (c2, none) => c2
        | (c2, some m) => catchFail c2 m
  let c := emitEvent afterTry .purchaseCompleted
  let c := onLoaderChangeWithRace c false
  setState c .ready

/-- The static session cache shared by all CheckoutInstance objects: a map
from the fingerprint string to the raw cached response envelope, modelled as
an association list. -/
abbrev Cache := List (String × Envelope)

/-- Map lookup on the cache. -/
def cacheGet : Cache → String → Option Envelope
  | [], _ => none
  | (k, v) :: rest, key => if k = key then some v else cacheGet rest key

/-- Map.set on the cache: replace an existing binding or append a new one. -/
def cacheSet : Cache → String → Envelope → Cache
  | [], key, v => [(key, v)]
  | (k, w) :: rest, key, v =>
    if k = key then (k, v) :: rest else (k, w) :: cacheSet rest key v

/-- The cache fingerprint from createSession (src/src/api.js lines 297 to
302): the dash-joined concatenation of orgId, priceId, customer externalId
and customer email. -/
def cacheKey (orgId priceId externalId email : String) : String :=
  String.intercalate "-" [orgId, priceId, externalId, email]

/-- createSession (src/src/api.js lines 281 to 319). On a cache hit the
cached raw envelope is used and no request is issued; on a miss the backend
is consulted (the fetched argument is the outcome of that request, which
may itself be a thrown network or HTTP error) and the raw envelope is
inserted into the cache before processSessionResponse interprets its status
discriminator. Returns the instance, the cache and the thrown error, if
any. -/
def createSession (c : Checkout) (cache : Cache)
    (fetched : Except SDKError Envelope) : Checkout × Cache × Option SDKError :=
  let key := cacheKey c.orgId c.priceId c.externalId c.email
  match cacheGet cache key with
  | some resp =>
    match processSessionResponse resp with
    | .error e => (c, cache, some e)
    | .ok sd => ({ c with orderId := sd.orderId, clientToken := sd.clientToken },
                 cache, none)
  | none =>
    let c := emitEvent c .requestCreateSession
    match fetched with
    | .error e => (c, cache, some e)
    | .ok resp =>
      let cache := cacheSet cache key resp
      match processSessionResponse resp with
      | .error e => (c, cache, some e)
      | .ok sd => ({ c with orderId := sd.orderId, clientToken := sd.clientToken },
                   cache, none)

/-- Whitespace as removed by the JavaScript trim call in sanitizeString:
space, tab, line feed, carriage return, by character code. -/
def isWs (ch : Char) : Bool :=
  ch.toNat = 32 ∨ ch.toNat = 9 ∨ ch.toNat = 10 ∨ ch.toNat = 13

/-- Drop leading whitespace characters. -/
def dropLeadingWs : List Char → List Char
  | [] => []
  | ch :: rest => if isWs ch then dropLeadingWs rest else ch :: rest

/-- Trim: drop trailing whitespace (leading on the reversed list), then
leading whitespace. -/
def trimChars (l : List Char) : List Char :=
  dropLeadingWs ((dropLeadingWs l.reverse).reverse)

/-- requireString from src/src/utils/validation.ts: the sanitized value
(trimmed, with a falsy fallback to the empty string) must be non-empty. -/
def requireStringOk (s : String) : Bool := !(trimChars s.data).isEmpty

/-- updatePrice (src/src/api.js lines 605 to 630). Guards in order: a
destroyed instance throws, an invalid priceId throws a validation error,
state processing throws the lifecycle error - all before any mutation.
Otherwise: state updating, the whole shared session cache is cleared, the
update request is issued (its outcome is the backend argument); on success
the stored priceId is replaced and state returns to ready; on failure state
becomes error, the error event is emitted and the error is rethrown. -/
def updatePrice (c : Checkout) (cache : Cache) (newPriceId : String)
    (backend : Except SDKError Unit) : Checkout × Cache × Option SDKError :=
  if c.isDestroyed then
    (c, cache, some (.checkoutError "Checkout instance has been destroyed"))
  else if ¬(requireStringOk newPriceId) then
    (c, cache, some (.validationError "priceId" "must be a non-empty string"))
  else if c.state = .processing then
    (c, cache, some (.checkoutError "Cannot update price while payment is processing"))
  else
    let c := setState c .updating
    let cache : Cache := []
    let c := emitEvent c (.requestUpdateSession newPriceId)
    match backend with
    | .ok _ =>
      let c := { c with priceId := newPriceId }
      (setState c .ready, cache, none)
    | .error e =>
      let c := setState c .error
      (emitEvent c (.errorEv (some e.msgText)), cache, some e)

/-- The destroyCallbacks.map call inside the Primer wrapper destroy
(src/src/primer-wrapper.ts lines 451 to 462): callbacks run in order and the
first synchronous throw propagates out of map, skipping the rest. -/
def runCleanups : List (Except String Unit) → Except String Unit
  | [] => .ok ()
  | .ok _ :: rest => runCleanups rest
  | .error e :: _ => .error e

/-- primerWrapper.destroy: the map runs inside try-catch, so a cleanup
failure is only logged and the wrapper itself never throws; the returned
value is the warning logged, if any. -/
def primerDestroy (cleanups : List (Except String Unit)) : Option String :=
  match runCleanups cleanups with
  | .ok _ => none
  | .error e => some e

/-- The try block of CheckoutInstance.destroy (src/src/api.js lines 642 to
656): await the provider teardown (total: it catches internally), set state
destroyed, clear orderId and clientToken, mark destroyed, emit destroy and
only then remove all listeners. The Except result records whether anything
in the block threw; no step can, so the result is always ok. -/
def destroyTry (c : Checkout) (cleanups : List (Except String Unit)) :
    Except String Checkout :=
  let c := match primerDestroy cleanups with
    | some w => emitEvent c (.warnLogged w)
    | none => c
  let c := setState c .destroyed
  let c := { c with orderId := none, clientToken := none, isDestroyed := true }
  let c := emitEvent c .destroyEv
  .ok (emitEvent c .listenersRemoved)

/-- destroy: an already destroyed instance returns immediately with no
effect; otherwise the try block runs and a throw from it would only be
logged (the catch), never rethrown. -/
def destroy (c : Checkout) (cleanups : List (Except String Unit)) : Checkout :=
  if c.isDestroyed then c
  else
    match destroyTry c cleanups with
    | .ok c2 => c2
    | .error w => emitEvent c (.warnLogged w)

/-- isProcessing (src/src/api.js lines 684 to 686): membership of the state
in the pair of processing and action_required. -/
def isProcessing (c : Checkout) : Bool :=
  c.state = .processing ∨ c.state = .action_required

/-- isReady: state ready and not destroyed. -/
def isReady (c : Checkout) : Bool :=
  c.state = .ready ∧ ¬c.isDestroyed

/-- Whether an Except value is a success, used to state that the destroy
try block has no throw point. -/
def exceptOk : Except String Checkout → Bool
  | .ok _ => true
  | .error _ => false

/-
Concrete fixtures used by witnesses and counterexamples.
-/

/-- A handler that records the emission argument in the world log and then
throws. -/
def wThrowing : HandlerFun Nat (List Nat) String :=
  fun a s => (s ++ [a], some "boom")

/-- A handler that records the emission argument plus one and returns
normally. -/
def wNormal : HandlerFun Nat (List Nat) String :=
  fun a s => (s ++ [a + 1], none)

/-- A concrete emitter with a throwing handler registered before a normal
one for the pay event. -/
def wEmitter : Emitter Nat (List Nat) String :=
  ⟨[("pay", [wThrowing, wNormal])]⟩

/-- A checkout instance sitting in the ready state. -/
def cReady : Checkout :=
  { orgId := "org-1", priceId := "price-1", externalId := "user-1"
    email := "u@example.com", state := .ready
    orderId := some "ord-0", clientToken := some "tok-0" }

/-- A checkout instance sitting in the processing state. -/
def cProcessing : Checkout :=
  { cReady with state := .processing }

/-- A checkout instance sitting in the action_required state. -/
def cActionRequired : Checkout :=
  { cReady with state := .action_required }

/-- A successful payment envelope: checkout_status succeeded with an order
id, as in the repository test scenarios. -/
def envSucceeded : Envelope :=
  { status := some "success"
    data := some { order_id := some "ord_1", checkout_status := some "succeeded" } }

/-- A payment envelope carrying an action-required token together with an
order id. -/
def envActionRequired : Envelope :=
  { status := some "success"
    data := some { order_id := some "ord_2", action_required_token := some "tok_3ds" } }

/-- A successful session-creation envelope. -/
def envSession : Envelope :=
  { status := some "success"
    data := some { order_id := some "ord_1", client_token := some "tok_a" } }

/-- A backend error envelope with one structured error entry. -/
def envSessionError : Envelope :=
  { status := some "error"
    error := some [{ msg := some "price not found", code := some "not_found"
                     etype := some "invalid_request" }]
    req_id := some "req-42" }

/-- A thrown network error. -/
def netError : SDKError := .apiError { message := "Network request failed" }

/-- A non-empty session cache unrelated to the fixtures fingerprints. -/
def cacheOther : Cache := [("other-key", envSession)]

/-- First fingerprint of the cache-key collision: the organization id
itself contains a dash. -/
def cT1 : Checkout :=
  { orgId := "acme-eu", priceId := "gold", externalId := "u1", email := "a@b.c"
    state := .initializing }

/-- Second fingerprint of the cache-key collision: a different organization
whose price id contains the dash instead; the joined key is identical. -/
def cT2 : Checkout :=
  { orgId := "acme", priceId := "eu-gold", externalId := "u1", email := "a@b.c"
    state := .initializing }

/-
Theorems.
-/

/-- The emit loop threads the world through every handler in order: its
final world is the left fold of the state effect of each handler over the
registered list, whatever each handler threw. -/
theorem runHandlers_fst {α σ ε : Type} (hs : List (HandlerFun α σ ε)) (a : α) :
    ∀ s : σ, (runHandlers hs a s).1 = hs.foldl (fun w f => (f a w).1) s := by
  induction hs with
  | nil => intro s; rfl
  | cons h t ih =>
    intro s
    simp only [runHandlers, List.foldl_cons]
    exact ih ((h a s).1)

/-- The emit loop produces one caught outcome per registered handler. -/
theorem runHandlers_len {α σ ε : Type} (hs : List (HandlerFun α σ ε)) (a : α) :
    ∀ s : σ, (runHandlers hs a s).2.length = hs.length := by
  induction hs with
  | nil => intro s; rfl
  | cons h t ih =>
    intro s
    simp only [runHandlers, List.length_cons]
    exact congrArg (· + 1) (ih ((h a s).1))

/-- Claim C3: for every event with a registered handler list, emit invokes
every handler in registration order with the emission arguments; a handler
that throws is caught (the loop records the outcome and continues, so the
final world is the fold of every handler state effect, and one outcome is
logged per handler), and emit still returns true. -/
theorem emit_isolates_handler_failures {α σ ε : Type}
    (em : Emitter α σ ε) (name : String) (hs : List (HandlerFun α σ ε))
    (a : α) (s : σ) (hreg : lookupHandlers em.events name = some hs) :
    (emit em name a s).1 = true
    ∧ (emit em name a s).2.1 = hs.foldl (fun w f => (f a w).1) s
    ∧ (emit em name a s).2.2.length = hs.length := by
  unfold emit
  rw [hreg]
  exact ⟨rfl, runHandlers_fst hs a s, runHandlers_len hs a s⟩

/-- Witness for C3 at a concrete emitter whose first handler throws: the
registration hypothesis holds and both handlers still run. -/
theorem emit_isolates_handler_failures_witness :
    lookupHandlers wEmitter.events "pay" = some [wThrowing, wNormal]
    ∧ ((emit wEmitter "pay" 5 []).1 = true
       ∧ (emit wEmitter "pay" 5 []).2.1
           = [wThrowing, wNormal].foldl (fun w f => (f 5 w).1) []
       ∧ (emit wEmitter "pay" 5 []).2.2.length = [wThrowing, wNormal].length) :=
  ⟨rfl, emit_isolates_handler_failures wEmitter "pay" [wThrowing, wNormal] 5 [] rfl⟩

/-- Claim C8 (amended): isProcessing returns true exactly when the state is
processing or action_required - not when it is ready. -/
theorem isProcessing_characterization (c : Checkout) :
    isProcessing c = true ↔ (c.state = .processing ∨ c.state = .action_required) := by
  simp [isProcessing]

/-- Counterexample to C8 as stated: on an instance in the ready state the
claimed equivalence with membership of the state in ready or
action_required fails, because isProcessing is false there. -/
theorem isProcessing_ready_cex :
    ¬ (isProcessing cReady = true
       ↔ (cReady.state = .ready ∨ cReady.state = .action_required)) := by
  decide

/-- Claim C10: the dash-joined session fingerprint is not injective - two
distinct (orgId, priceId, externalId, email) tuples collide - and a
checkout created for the second tuple is served the session cached for the
first one: after cT1 populates the cache, creating a session for cT2 with a
failing backend still succeeds from the cache, issues no request, and
returns cT1 order id. -/
theorem cacheKey_not_injective :
    (cT1.orgId, cT1.priceId, cT1.externalId, cT1.email)
      ≠ (cT2.orgId, cT2.priceId, cT2.externalId, cT2.email)
    ∧ cacheKey cT1.orgId cT1.priceId cT1.externalId cT1.email
      = cacheKey cT2.orgId cT2.priceId cT2.externalId cT2.email
    ∧ (createSession cT2 (createSession cT1 [] (.ok envSession)).2.1
         (.error netError)).2.2 = none
    ∧ (createSession cT2 (createSession cT1 [] (.ok envSession)).2.1
         (.error netError)).1.orderId = some "ord_1"
    ∧ (createSession cT2 (createSession cT1 [] (.ok envSession)).2.1
         (.error netError)).1.trace.countP Event.isCreateSessionReq = 0 := by
  decide

/-- Claim C6: for a non-error envelope, processPaymentResponse is the pure
branching of the envelope contents: a present (truthy) action-required
token wins over any checkout_status; otherwise succeeded yields the success
variant, failed and cancelled throw API errors, processing yields the
processing variant, any other present checkout status throws the
unhandled-status error, and an absent or empty checkout status throws the
invalid-format error. -/
theorem processPaymentResponse_branching (e : Envelope)
    (henv : e.status ≠ some "error") :
    (truthy (effData e).action_required_token = true →
       processPaymentResponse e = .ok
         { rtype := "action_required", orderId := (effData e).order_id
           clientToken := (effData e).action_required_token })
    ∧ (truthy (effData e).action_required_token = false →
        ((effData e).checkout_status = some "succeeded" →
           processPaymentResponse e = .ok
             { rtype := "success", orderId := (effData e).order_id
               status := some "succeeded"
               transactionId := (effData e).transaction_id })
        ∧ ((effData e).checkout_status = some "failed" →
           processPaymentResponse e = .error (.apiError { message :=
             (if truthy (effData e).failed_message_for_user then
               (effData e).failed_message_for_user.getD ""
             else "Payment failed") }))
        ∧ ((effData e).checkout_status = some "cancelled" →
           processPaymentResponse e = .error
             (.apiError { message := "Payment was cancelled by user" }))
        ∧ ((effData e).checkout_status = some "processing" →
           processPaymentResponse e = .ok
             { rtype := "processing", orderId := (effData e).order_id
               status := some "processing" })
        ∧ (∀ s : String, (effData e).checkout_status = some s → s ≠ "" →
             s ≠ "succeeded" → s ≠ "failed" → s ≠ "cancelled" → s ≠ "processing" →
             processPaymentResponse e = .error
               (.apiError { message := "Unhandled checkout status: " ++ s }))
        ∧ (truthy (effData e).checkout_status = false →
           processPaymentResponse e = .error
             (.apiError { message := "Invalid payment response format" }))) := by
  have tsome : ∀ s : String, truthy (some s) = (s != "") := fun _ => rfl
  constructor
  · intro htok
    simp [processPaymentResponse, henv, htok]
  · intro htok
    refine ⟨?_, ?_, ?_, ?_, ?_, ?_⟩
    · intro hst
      simp [processPaymentResponse, henv, htok, hst, tsome]
    · intro hst
      simp [processPaymentResponse, henv, htok, hst, tsome]
    · intro hst
      simp [processPaymentResponse, henv, htok, hst, tsome]
    · intro hst
      simp [processPaymentResponse, henv, htok, hst, tsome]
    · intro s hst hne h1 h2 h3 h4
      simp [processPaymentResponse, henv, htok, hst, tsome, bne_iff_ne,
        hne, h1, h2, h3, h4]
    · intro hst
      simp [processPaymentResponse, henv, htok, hst]

/-- Witness for C6: on a concrete envelope carrying both an order id and an
action-required token, the token branch fires. -/
theorem processPaymentResponse_branching_witness :
    envActionRequired.status ≠ some "error"
    ∧ (truthy (effData envActionRequired).action_required_token = true →
       processPaymentResponse envActionRequired = .ok
         { rtype := "action_required"
           orderId := (effData envActionRequired).order_id
           clientToken := (effData envActionRequired).action_required_token }) :=
  ⟨by decide, (processPaymentResponse_branching envActionRequired (by decide)).1⟩

/-- Looking up the key just stored in the cache returns the stored
envelope. -/
theorem cacheGet_set_self (cache : Cache) (key : String) (v : Envelope) :
    cacheGet (cacheSet cache key v) key = some v := by
  induction cache with
  | nil => simp [cacheSet, cacheGet]
  | cons kv rest ih =>
    obtain ⟨k, w⟩ := kv
    by_cases h : k = key
    · simp [cacheSet, cacheGet, h]
    · simp [cacheSet, cacheGet, h, ih]

/-- A non-error envelope is interpreted by processSessionResponse as the
session data of its effective data object. -/
theorem processSessionResponse_ok (env : Envelope) (henv : env.status ≠ some "error") :
    processSessionResponse env = .ok
      { orderId := (effData env).order_id, clientToken := (effData env).client_token } := by
  simp [processSessionResponse, henv]

/-- The first createSession call on a cache miss with a successful backend
envelope: it issues the request, stores the raw envelope under the
fingerprint and adopts the session data. -/
theorem createSession_miss_ok (c : Checkout) (cache : Cache) (env : Envelope)
    (hmiss : cacheGet cache (cacheKey c.orgId c.priceId c.externalId c.email) = none)
    (henv : env.status ≠ some "error") :
    createSession c cache (.ok env) =
      ({ c with
          trace := c.trace ++ [.requestCreateSession],
          orderId := (effData env).order_id,
          clientToken := (effData env).client_token },
       cacheSet cache (cacheKey c.orgId c.priceId c.externalId c.email) env, none) := by
  simp [createSession, hmiss, processSessionResponse_ok env henv, emitEvent]

/-- A createSession call that hits the cache on a successful envelope: no
request is issued and the cached session data is adopted. -/
theorem createSession_hit_ok (c : Checkout) (cache : Cache) (env : Envelope)
    (f : Except SDKError Envelope)
    (hhit : cacheGet cache (cacheKey c.orgId c.priceId c.externalId c.email) = some env)
    (henv : env.status ≠ some "error") :
    createSession c cache f =
      ({ c with
          orderId := (effData env).order_id,
          clientToken := (effData env).client_token }, cache, none) := by
  simp [createSession, hhit, processSessionResponse_ok env henv]

/-- Claim C7: two session creations with an identical (orgId, priceId,
externalId, email) fingerprint issue exactly one backend request: the first
call (cache miss, successful envelope) issues it, the second call leaves
the trace untouched - whatever its backend oracle would have answered - and
adopts the same orderId and clientToken from the cache. -/
theorem session_cache_single_backend_request
    (c1 c2 : Checkout) (cache : Cache) (env : Envelope)
    (f2 : Except SDKError Envelope)
    (horg : c2.orgId = c1.orgId) (hpr : c2.priceId = c1.priceId)
    (hex : c2.externalId = c1.externalId) (hem : c2.email = c1.email)
    (hmiss : cacheGet cache (cacheKey c1.orgId c1.priceId c1.externalId c1.email) = none)
    (henv : env.status ≠ some "error") :
    (createSession c1 cache (.ok env)).2.2 = none
    ∧ (createSession c1 cache (.ok env)).1.trace.countP Event.isCreateSessionReq
        = c1.trace.countP Event.isCreateSessionReq + 1
    ∧ (createSession c2 (createSession c1 cache (.ok env)).2.1 f2).2.2 = none
    ∧ (createSession c2 (createSession c1 cache (.ok env)).2.1 f2).1.trace = c2.trace
    ∧ (createSession c2 (createSession c1 cache (.ok env)).2.1 f2).1.orderId
        = (createSession c1 cache (.ok env)).1.orderId
    ∧ (createSession c2 (createSession c1 cache (.ok env)).2.1 f2).1.clientToken
        = (createSession c1 cache (.ok env)).1.clientToken := by
  have e1 := createSession_miss_ok c1 cache env hmiss henv
  have hhit : cacheGet (createSession c1 cache (.ok env)).2.1
      (cacheKey c2.orgId c2.priceId c2.externalId c2.email) = some env := by
    rw [e1, horg, hpr, hex, hem]
    exact cacheGet_set_self cache _ env
  have e2 := createSession_hit_ok c2 (createSession c1 cache (.ok env)).2.1 env f2 hhit henv
  rw [e2, e1]
  simp [Event.isSuccessEv, Event.isCreateSessionReq, List.countP_append, List.countP_cons]

/-- Witness for C7 at a concrete fingerprint, unrelated warm cache and
successful envelope: one request for the first call, none for the second,
identical session data. -/
theorem session_cache_single_backend_request_witness :
    (createSession cReady cacheOther (.ok envSession)).2.2 = none
    ∧ (createSession cReady cacheOther (.ok envSession)).1.trace.countP
        Event.isCreateSessionReq
        = cReady.trace.countP Event.isCreateSessionReq + 1
    ∧ (createSession cReady (createSession cReady cacheOther (.ok envSession)).2.1
         (.error netError)).2.2 = none
    ∧ (createSession cReady (createSession cReady cacheOther (.ok envSession)).2.1
         (.error netError)).1.trace = cReady.trace
    ∧ (createSession cReady (createSession cReady cacheOther (.ok envSession)).2.1
         (.error netError)).1.orderId
        = (createSession cReady cacheOther (.ok envSession)).1.orderId
    ∧ (createSession cReady (createSession cReady cacheOther (.ok envSession)).2.1
         (.error netError)).1.clientToken
        = (createSession cReady cacheOther (.ok envSession)).1.clientToken :=
  session_cache_single_backend_request cReady cReady cacheOther envSession
    (.error netError) rfl rfl rfl rfl (by decide) (by decide)

/-- An error envelope is interpreted by processSessionResponse as a thrown
structured API error with the session default message. -/
theorem processSessionResponse_err (env : Envelope) (herr : env.status = some "error") :
    processSessionResponse env = .error (envelopeError env "Session creation failed") := by
  simp [processSessionResponse, herr]

/-- A createSession call that hits the cache on a cached error envelope:
no request is issued and the same structured error is thrown again. -/
theorem createSession_hit_err (c : Checkout) (cache : Cache) (env : Envelope)
    (f : Except SDKError Envelope)
    (hhit : cacheGet cache (cacheKey c.orgId c.priceId c.externalId c.email) = some env)
    (herr : env.status = some "error") :
    createSession c cache f =
      (c, cache, some (envelopeError env "Session creation failed")) := by
  simp [createSession, hhit, processSessionResponse_err env herr]

/-- Claim C9: createSession caches the raw envelope before interpreting its
status, so a backend error envelope is cached: the first call issues the
request, stores the envelope under the fingerprint and throws the
structured API error; every subsequent call with the same fingerprint
throws the identical error from the cache without touching the backend or
the trace; and any successful pass through the updatePrice guards empties
the whole shared cache. -/
theorem error_envelope_cached_and_replayed
    (c1 c2 : Checkout) (cache : Cache) (env : Envelope)
    (f2 : Except SDKError Envelope)
    (horg : c2.orgId = c1.orgId) (hpr : c2.priceId = c1.priceId)
    (hex : c2.externalId = c1.externalId) (hem : c2.email = c1.email)
    (hmiss : cacheGet cache (cacheKey c1.orgId c1.priceId c1.externalId c1.email) = none)
    (herr : env.status = some "error") :
    (createSession c1 cache (.ok env)).2.2
        = some (envelopeError env "Session creation failed")
    ∧ cacheGet (createSession c1 cache (.ok env)).2.1
        (cacheKey c1.orgId c1.priceId c1.externalId c1.email) = some env
    ∧ (createSession c1 cache (.ok env)).1.trace.countP Event.isCreateSessionReq
        = c1.trace.countP Event.isCreateSessionReq + 1
    ∧ (createSession c2 (createSession c1 cache (.ok env)).2.1 f2).2.2
        = some (envelopeError env "Session creation failed")
    ∧ (createSession c2 (createSession c1 cache (.ok env)).2.1 f2).1.trace = c2.trace
    ∧ (∀ (c3 : Checkout) (cache3 : Cache) (pid : String) (b : Except SDKError Unit),
         c3.isDestroyed = false → requireStringOk pid = true →
         c3.state ≠ .processing → (updatePrice c3 cache3 pid b).2.1 = []) := by
  have hpe := processSessionResponse_err env herr
  have e1 : createSession c1 cache (.ok env) =
      ({ c1 with trace := c1.trace ++ [.requestCreateSession] },
       cacheSet cache (cacheKey c1.orgId c1.priceId c1.externalId c1.email) env,
       some (envelopeError env "Session creation failed")) := by
    simp [createSession, hmiss, hpe, emitEvent]
  have hhit : cacheGet (createSession c1 cache (.ok env)).2.1
      (cacheKey c2.orgId c2.priceId c2.externalId c2.email) = some env := by
    rw [e1, horg, hpr, hex, hem]
    exact cacheGet_set_self cache _ env
  have e2 := createSession_hit_err c2 (createSession c1 cache (.ok env)).2.1 env f2 hhit herr
  refine ⟨?_, ?_, ?_, ?_, ?_, ?_⟩
  · rw [e1]
  · rw [e1]
    exact cacheGet_set_self cache _ env
  · rw [e1]
    simp [Event.isCreateSessionReq, List.countP_append, List.countP_cons]
  · rw [e2]
  · rw [e2]
  · intro c3 cache3 pid b hd hv hst
    cases b <;> simp [updatePrice, hd, hv, hst]

/-- Witness for C9 at a concrete error envelope: the error is thrown,
cached and replayed without a second request, and updatePrice from the
ready state empties the cache. -/
theorem error_envelope_cached_and_replayed_witness :
    (createSession cT1 [] (.ok envSessionError)).2.2
        = some (envelopeError envSessionError "Session creation failed")
    ∧ cacheGet (createSession cT1 [] (.ok envSessionError)).2.1
        (cacheKey cT1.orgId cT1.priceId cT1.externalId cT1.email) = some envSessionError
    ∧ (createSession cT1 [] (.ok envSessionError)).1.trace.countP
        Event.isCreateSessionReq
        = cT1.trace.countP Event.isCreateSessionReq + 1
    ∧ (createSession cT1 (createSession cT1 [] (.ok envSessionError)).2.1
         (.error netError)).2.2
        = some (envelopeError envSessionError "Session creation failed")
    ∧ (createSession cT1 (createSession cT1 [] (.ok envSessionError)).2.1
         (.error netError)).1.trace = cT1.trace
    ∧ (∀ (c3 : Checkout) (cache3 : Cache) (pid : String) (b : Except SDKError Unit),
         c3.isDestroyed = false → requireStringOk pid = true →
         c3.state ≠ .processing → (updatePrice c3 cache3 pid b).2.1 = []) :=
  error_envelope_cached_and_replayed cT1 cT1 [] envSessionError (.error netError)
    rfl rfl rfl rfl (by decide) (by decide)

/-- Claim C4 (amended): with a valid price id on a live instance, only the
processing state rejects updatePrice - synchronously, with the lifecycle
error, before any request, leaving the instance, its priceId and the cache
untouched; in the action_required state the call is not rejected: it
proceeds, clears the whole shared cache and issues the update request. -/
theorem updatePrice_processing_guard
    (c : Checkout) (cache : Cache) (pid : String) (b : Except SDKError Unit)
    (hd : c.isDestroyed = false) (hv : requireStringOk pid = true) :
    (c.state = .processing →
       updatePrice c cache pid b =
         (c, cache,
          some (.checkoutError "Cannot update price while payment is processing")))
    ∧ (c.state = .action_required →
       (updatePrice c cache pid b).2.1 = ([] : Cache)
       ∧ (updatePrice c cache pid b).1.trace.countP Event.isUpdateSessionReq
           = c.trace.countP Event.isUpdateSessionReq + 1) := by
  constructor
  · intro h
    simp [updatePrice, hd, hv, h]
  · intro h
    have hns : ¬(c.state = .processing) := by simp [h]
    cases b <;>
      simp [updatePrice, hd, hv, hns, h, setState, emitEvent,
        Event.isUpdateSessionReq, List.countP_append, List.countP_cons]

/-- Counterexample to C4 as stated: in the action_required state updatePrice
does not raise - it returns without a thrown error, replaces the cache with
the empty one and issues the backend update request. -/
theorem updatePrice_action_required_cex :
    (updatePrice cActionRequired cacheOther "price-2" (.ok ())).2.2 = none
    ∧ (updatePrice cActionRequired cacheOther "price-2" (.ok ())).2.1 ≠ cacheOther
    ∧ (updatePrice cActionRequired cacheOther "price-2" (.ok ())).1.trace.countP
        Event.isUpdateSessionReq = 1 := by
  decide

/-- Witness for C4 at a concrete processing-state instance and valid new
price id. -/
theorem updatePrice_processing_guard_witness :
    cProcessing.isDestroyed = false
    ∧ requireStringOk "price-2" = true
    ∧ ((cProcessing.state = .processing →
         updatePrice cProcessing cacheOther "price-2" (.ok ()) =
           (cProcessing, cacheOther,
            some (.checkoutError "Cannot update price while payment is processing")))
       ∧ (cProcessing.state = .action_required →
         (updatePrice cProcessing cacheOther "price-2" (.ok ())).2.1 = ([] : Cache)
         ∧ (updatePrice cProcessing cacheOther "price-2" (.ok ())).1.trace.countP
             Event.isUpdateSessionReq
             = cProcessing.trace.countP Event.isUpdateSessionReq + 1)) :=
  ⟨rfl, by decide,
   updatePrice_processing_guard cProcessing cacheOther "price-2" (.ok ()) rfl (by decide)⟩

/-- Claim C5: destroy on an already destroyed instance is a silent no-op;
on a live instance it always completes - the try block has no throw point
(the provider teardown catches internally and at worst logs a warning), the
state becomes destroyed, orderId and clientToken are cleared, and the
destroy event is emitted strictly before the listeners are removed - even
when a provider cleanup callback fails. -/
theorem destroy_completes_and_is_idempotent
    (c : Checkout) (cleanups : List (Except String Unit)) :
    (c.isDestroyed = true → destroy c cleanups = c)
    ∧ (c.isDestroyed = false →
        exceptOk (destroyTry c cleanups) = true
        ∧ (destroy c cleanups).state = .destroyed
        ∧ (destroy c cleanups).isDestroyed = true
        ∧ (destroy c cleanups).orderId = none
        ∧ (destroy c cleanups).clientToken = none
        ∧ (destroy c cleanups).trace =
            c.trace
            ++ (match primerDestroy cleanups with
                | some w => [Event.warnLogged w]
                | none => [])
            ++ (if c.state = .destroyed then []
                else [Event.statusChange .destroyed c.state])
            ++ [Event.destroyEv, Event.listenersRemoved]) := by
  constructor
  · intro h
    simp [destroy, h]
  · intro h
    cases hp : primerDestroy cleanups <;>
      by_cases hs : c.state = .destroyed <;>
        simp [destroy, destroyTry, exceptOk, h, hp, hs, setState, emitEvent]

/-- Witness for C5 at a concrete live instance whose provider teardown
callback fails: destruction still completes, with the failure only
logged. -/
theorem destroy_completes_witness :
    cReady.isDestroyed = false
    ∧ (exceptOk (destroyTry cReady [.error "boom"]) = true
       ∧ (destroy cReady [.error "boom"]).state = .destroyed
       ∧ (destroy cReady [.error "boom"]).isDestroyed = true
       ∧ (destroy cReady [.error "boom"]).orderId = none
       ∧ (destroy cReady [.error "boom"]).clientToken = none
       ∧ (destroy cReady [.error "boom"]).trace =
           cReady.trace
           ++ (match primerDestroy [.error "boom"] with
               | some w => [Event.warnLogged w]
               | none => [])
           ++ (if cReady.state = .destroyed then []
               else [Event.statusChange .destroyed cReady.state])
           ++ [Event.destroyEv, Event.listenersRemoved]) :=
  ⟨rfl, (destroy_completes_and_is_idempotent cReady [.error "boom"]).2 rfl⟩

/-- A non-error envelope without an action token whose checkout status is
succeeded is interpreted as the success result. -/
theorem ppr_succeeded (env : Envelope)
    (henv : env.status ≠ some "error")
    (htok : truthy (effData env).action_required_token = false)
    (hst : (effData env).checkout_status = some "succeeded") :
    processPaymentResponse env = .ok
      { rtype := "success", orderId := (effData env).order_id
        status := some "succeeded"
        transactionId := (effData env).transaction_id } := by
  have tsome : ∀ s : String, truthy (some s) = (s != "") := fun _ => rfl
  simp [processPaymentResponse, henv, htok, hst, tsome]

/-- A non-error envelope with a truthy action token is interpreted as the
action-required result, whatever its checkout status. -/
theorem ppr_action (env : Envelope)
    (henv : env.status ≠ some "error")
    (htok : truthy (effData env).action_required_token = true) :
    processPaymentResponse env = .ok
      { rtype := "action_required", orderId := (effData env).order_id
        clientToken := (effData env).action_required_token } := by
  simp [processPaymentResponse, henv, htok]

/-- Claim C1 (amended): a backend payment response interpreted as success
drives the handler through state completed - a status change to completed
is emitted, then exactly one success event carrying the orderId echoed from
the response, then the provider success callback - but the handler finally
block then lowers the loader and sets the state back to ready, so the state
once the handler finishes is ready, not completed. This holds for the
tokenize handler and for the resume handler, which additionally emits
purchase-completed in its finally block. -/
theorem payment_success_completed_then_ready
    (c : Checkout) (tok rtok : String) (env : Envelope)
    (henv : env.status ≠ some "error")
    (htok : truthy (effData env).action_required_token = false)
    (hst : (effData env).checkout_status = some "succeeded") :
    ((handleTokenizeSuccess c tok (.ok env)).state = .ready
     ∧ (handleTokenizeSuccess c tok (.ok env)).trace =
         c.trace
         ++ [Event.loaderChange (c.counter + 1 != 0)]
         ++ (if c.state = .processing then []
             else [Event.statusChange .processing c.state])
         ++ [Event.requestCreatePayment tok,
             Event.statusChange .completed .processing,
             Event.success (effData env).order_id (some "succeeded"),
             Event.providerHandleSuccess,
             Event.loaderChange (c.counter != 0),
             Event.statusChange .ready .completed]
     ∧ (handleTokenizeSuccess c tok (.ok env)).trace.countP Event.isSuccessEv
         = c.trace.countP Event.isSuccessEv + 1)
    ∧ ((handleResumeSuccess c rtok (.ok env)).state = .ready
     ∧ (handleResumeSuccess c rtok (.ok env)).trace =
         c.trace
         ++ [Event.loaderChange (c.counter + 1 != 0)]
         ++ (if c.state = .processing then []
             else [Event.statusChange .processing c.state])
         ++ [Event.requestResumePayment rtok,
             Event.statusChange .completed .processing,
             Event.success (effData env).order_id (some "succeeded"),
             Event.providerHandleSuccess,
             Event.purchaseCompleted,
             Event.loaderChange (c.counter != 0),
             Event.statusChange .ready .completed]
     ∧ (handleResumeSuccess c rtok (.ok env)).trace.countP Event.isSuccessEv
         = c.trace.countP Event.isSuccessEv + 1) := by
  have hppr := ppr_succeeded env henv htok hst
  constructor
  · by_cases hc : c.state = .processing <;>
      by_cases htr : truthy (effData env).order_id <;>
        simp [handleTokenizeSuccess, hppr, processPaymentResult, catchFail,
          onLoaderChangeWithRace, setState, emitEvent, hc, htr,
          Event.isSuccessEv, List.countP_append, List.countP_cons]
  · by_cases hc : c.state = .processing <;>
      by_cases htr : truthy (effData env).order_id <;>
        simp [handleResumeSuccess, hppr, processPaymentResult, catchFail,
          onLoaderChangeWithRace, setState, emitEvent, hc, htr,
          Event.isSuccessEv, List.countP_append, List.countP_cons]

/-- Counterexample to C1 as stated: on a ready instance handling a
succeeded payment response, the state once the tokenize handler finishes is
ready - the finally block overwrote completed - so the claimed final state
completed is wrong. -/
theorem payment_success_final_state_cex :
    (handleTokenizeSuccess cReady "tokX" (.ok envSucceeded)).state = .ready
    ∧ (handleTokenizeSuccess cReady "tokX" (.ok envSucceeded)).state
        ≠ .completed := by
  decide

/-- Witness for C1 at a concrete ready instance and succeeded envelope. -/
theorem payment_success_completed_then_ready_witness :
    envSucceeded.status ≠ some "error"
    ∧ truthy (effData envSucceeded).action_required_token = false
    ∧ (effData envSucceeded).checkout_status = some "succeeded"
    ∧ (((handleTokenizeSuccess cReady "tokA" (.ok envSucceeded)).state = .ready
       ∧ (handleTokenizeSuccess cReady "tokA" (.ok envSucceeded)).trace =
           cReady.trace
           ++ [Event.loaderChange (cReady.counter + 1 != 0)]
           ++ (if cReady.state = .processing then []
               else [Event.statusChange .processing cReady.state])
           ++ [Event.requestCreatePayment "tokA",
               Event.statusChange .completed .processing,
               Event.success (effData envSucceeded).order_id (some "succeeded"),
               Event.providerHandleSuccess,
               Event.loaderChange (cReady.counter != 0),
               Event.statusChange .ready .completed]
       ∧ (handleTokenizeSuccess cReady "tokA" (.ok envSucceeded)).trace.countP
           Event.isSuccessEv
           = cReady.trace.countP Event.isSuccessEv + 1)
      ∧ ((handleResumeSuccess cReady "tokB" (.ok envSucceeded)).state = .ready
       ∧ (handleResumeSuccess cReady "tokB" (.ok envSucceeded)).trace =
           cReady.trace
           ++ [Event.loaderChange (cReady.counter + 1 != 0)]
           ++ (if cReady.state = .processing then []
               else [Event.statusChange .processing cReady.state])
           ++ [Event.requestResumePayment "tokB",
               Event.statusChange .completed .processing,
               Event.success (effData envSucceeded).order_id (some "succeeded"),
               Event.providerHandleSuccess,
               Event.purchaseCompleted,
               Event.loaderChange (cReady.counter != 0),
               Event.statusChange .ready .completed]
       ∧ (handleResumeSuccess cReady "tokB" (.ok envSucceeded)).trace.countP
           Event.isSuccessEv
           = cReady.trace.countP Event.isSuccessEv + 1)) :=
  ⟨by decide, by decide, by decide,
   payment_success_completed_then_ready cReady "tokA" "tokB" envSucceeded
     (by decide) (by decide) (by decide)⟩

/-- Claim C2 (amended): a backend payment response carrying a truthy
action-required token drives the handler through state action_required -
the status change to action_required is emitted, the stored client token is
replaced by the new token, the provider is told to continue with it, and
neither a success nor a purchase-failure event is emitted during the
handling - but the handler finally block then sets the state back to ready,
so the state once the handler finishes is ready, not action_required. The
resume handler behaves identically, emitting purchase-completed in its
finally block. -/
theorem payment_action_required_updates_token
    (c : Checkout) (tok rtok : String) (env : Envelope)
    (henv : env.status ≠ some "error")
    (htok : truthy (effData env).action_required_token = true) :
    ((handleTokenizeSuccess c tok (.ok env)).state = .ready
     ∧ (handleTokenizeSuccess c tok (.ok env)).clientToken
         = (effData env).action_required_token
     ∧ (handleTokenizeSuccess c tok (.ok env)).trace =
         c.trace
         ++ [Event.loaderChange (c.counter + 1 != 0)]
         ++ (if c.state = .processing then []
             else [Event.statusChange .processing c.state])
         ++ [Event.requestCreatePayment tok,
             Event.statusChange .action_required .processing,
             Event.providerContinueWithToken (effData env).action_required_token,
             Event.loaderChange (c.counter != 0),
             Event.statusChange .ready .action_required]
     ∧ (handleTokenizeSuccess c tok (.ok env)).trace.countP Event.isSuccessEv
         = c.trace.countP Event.isSuccessEv
     ∧ (handleTokenizeSuccess c tok (.ok env)).trace.countP Event.isPurchaseFailureEv
         = c.trace.countP Event.isPurchaseFailureEv)
    ∧ ((handleResumeSuccess c rtok (.ok env)).state = .ready
     ∧ (handleResumeSuccess c rtok (.ok env)).clientToken
         = (effData env).action_required_token
     ∧ (handleResumeSuccess c rtok (.ok env)).trace =
         c.trace
         ++ [Event.loaderChange (c.counter + 1 != 0)]
         ++ (if c.state = .processing then []
             else [Event.statusChange .processing c.state])
         ++ [Event.requestResumePayment rtok,
             Event.statusChange .action_required .processing,
             Event.providerContinueWithToken (effData env).action_required_token,
             Event.purchaseCompleted,
             Event.loaderChange (c.counter != 0),
             Event.statusChange .ready .action_required]
     ∧ (handleResumeSuccess c rtok (.ok env)).trace.countP Event.isSuccessEv
         = c.trace.countP Event.isSuccessEv
     ∧ (handleResumeSuccess c rtok (.ok env)).trace.countP Event.isPurchaseFailureEv
         = c.trace.countP Event.isPurchaseFailureEv) := by
  have hppr := ppr_action env henv htok
  constructor
  · by_cases hc : c.state = .processing <;>
      by_cases htr : truthy (effData env).order_id <;>
        simp [handleTokenizeSuccess, hppr, processPaymentResult, catchFail,
          onLoaderChangeWithRace, setState, emitEvent, hc, htr,
          Event.isSuccessEv, Event.isPurchaseFailureEv,
          List.countP_append, List.countP_cons]
  · by_cases hc : c.state = .processing <;>
      by_cases htr : truthy (effData env).order_id <;>
        simp [handleResumeSuccess, hppr, processPaymentResult, catchFail,
          onLoaderChangeWithRace, setState, emitEvent, hc, htr,
          Event.isSuccessEv, Event.isPurchaseFailureEv,
          List.countP_append, List.countP_cons]

/-- Counterexample to C2 as stated: on a ready instance handling an
action-required response, the state once the tokenize handler finishes is
ready - the finally block overwrote action_required - so the claimed final
state action_required is wrong. -/
theorem payment_action_required_final_state_cex :
    (handleTokenizeSuccess cReady "tokX" (.ok envActionRequired)).state = .ready
    ∧ (handleTokenizeSuccess cReady "tokX" (.ok envActionRequired)).state
        ≠ .action_required := by
  decide

/-- Witness for C2 at a concrete ready instance and action-required
envelope. -/
theorem payment_action_required_updates_token_witness :
    envActionRequired.status ≠ some "error"
    ∧ truthy (effData envActionRequired).action_required_token = true
    ∧ (((handleTokenizeSuccess cReady "tokA" (.ok envActionRequired)).state = .ready
       ∧ (handleTokenizeSuccess cReady "tokA" (.ok envActionRequired)).clientToken
           = (effData envActionRequired).action_required_token
       ∧ (handleTokenizeSuccess cReady "tokA" (.ok envActionRequired)).trace =
           cReady.trace
           ++ [Event.loaderChange (cReady.counter + 1 != 0)]
           ++ (if cReady.state = .processing then []
               else [Event.statusChange .processing cReady.state])
           ++ [Event.requestCreatePayment "tokA",
               Event.statusChange .action_required .processing,
               Event.providerContinueWithToken
                 (effData envActionRequired).action_required_token,
               Event.loaderChange (cReady.counter != 0),
               Event.statusChange .ready .action_required]
       ∧ (handleTokenizeSuccess cReady "tokA" (.ok envActionRequired)).trace.countP
           Event.isSuccessEv = cReady.trace.countP Event.isSuccessEv
       ∧ (handleTokenizeSuccess cReady "tokA"
           (.ok envActionRequired)).trace.countP Event.isPurchaseFailureEv
           = cReady.trace.countP Event.isPurchaseFailureEv)
      ∧ ((handleResumeSuccess cReady "tokB" (.ok envActionRequired)).state = .ready
       ∧ (handleResumeSuccess cReady "tokB" (.ok envActionRequired)).clientToken
           = (effData envActionRequired).action_required_token
       ∧ (handleResumeSuccess cReady "tokB" (.ok envActionRequired)).trace =
           cReady.trace
           ++ [Event.loaderChange (cReady.counter + 1 != 0)]
           ++ (if cReady.state = .processing then []
               else [Event.statusChange .processing cReady.state])
           ++ [Event.requestResumePayment "tokB",
               Event.statusChange .action_required .processing,
               Event.providerContinueWithToken
                 (effData envActionRequired).action_required_token,
               Event.purchaseCompleted,
               Event.loaderChange (cReady.counter != 0),
               Event.statusChange .ready .action_required]
       ∧ (handleResumeSuccess cReady "tokB" (.ok envActionRequired)).trace.countP
           Event.isSuccessEv = cReady.trace.countP Event.isSuccessEv
       ∧ (handleResumeSuccess cReady "tokB"
           (.ok envActionRequired)).trace.countP Event.isPurchaseFailureEv
           = cReady.trace.countP Event.isPurchaseFailureEv)) :=
  ⟨by decide, by decide,
   payment_action_required_updates_token cReady "tokA" "tokB" envActionRequired
     (by decide) (by decide)⟩

end FFB
